import Mathlib

/-!
Shallow embedding of the pycassa connection pool (src/pycassa/pool.py).

The embedding models the pool sequentially: every operation is a function
from a pool state (and, where the source consults the outside world, an
explicit environment) to a new pool state, the list of listener
notifications the operation fires, and an outcome.  Each invocation of a
notifier method (notify on connect, on checkout, on checkin, on dispose,
on recycle, on failure, on server list, on pool max) is recorded as one
event; fan-out to individual listeners is not modelled.

The RPC transport itself (pycassa/connection.py) and the vendored
thread-safe queue module are repository code that is not under src; they
are modelled from the spec where noted.  Everything else is translated
directly from src/pycassa/pool.py.
-/

namespace Pycassa

/-- Wrapper states, ConnectionWrapper._IN_QUEUE / _CHECKED_OUT / _DISPOSED
(pool.py lines 349-351). -/
inductive WState
  | inQueue
  | checkedOut
  | disposed
  deriving Repr, DecidableEq

/-- Modelled from the spec: the transport facade (pycassa/connection.py is
not under src).  A transport is an opaque handle that is open to one
server address; the handle number distinguishes distinct transport
instances. -/
structure Transport where
  server : String
  handle : Nat
  deriving Repr, DecidableEq

/-- The ConnectionWrapper object (pool.py lines 340-375).  Python attributes
are record fields; wid models object identity (the caller-held reference).
shadowInfo and shadowStarttime model the distinct attributes named with a
leading underscore that _replace assigns (pool.py lines 438-439): in the
source these are separate attributes from info and starttime, absent until
_replace first writes them. -/
structure ConnectionWrapper where
  wid : Nat
  server : String
  transport : Transport
  iprot : Nat
  oprot : Nat
  lock : Nat
  info : Nat
  starttime : Nat
  operation_count : Nat
  retry_count : Nat
  max_retries : Int
  state : WState
  should_fail : Bool
  shadowInfo : Option Nat
  shadowStarttime : Option Nat
  deriving Repr, DecidableEq

/-- ConnectionWrapper.__init__ (pool.py lines 353-375) combined with the
spec-modelled Connection construction: a fresh wrapper is bound to the
given server, has a fresh transport open to that server, zero counters and
state CHECKED_OUT.  now is the creation instant (time.time() abstracted). -/
def mkWrapper (wid : Nat) (server : String) (now : Nat) (mr : Int) : ConnectionWrapper :=
  { wid := wid
    server := server
    transport := { server := server, handle := wid }
    iprot := wid
    oprot := wid
    lock := wid
    info := wid
    starttime := now
    operation_count := 0
    retry_count := 0
    max_retries := mr
    state := WState.checkedOut
    should_fail := false
    shadowInfo := none
    shadowStarttime := none }

/-- One notifier invocation (Pool._notify_on_* methods, pool.py lines
244-333).  Payloads carry the fields the claims mention. -/
inductive Event
  | connection_created (wid : Nat)
  | connection_checked_out (wid : Nat)
  | connection_checked_in (wid : Nat)
  | connection_disposed (wid : Nat)
  | connection_recycled (oldWid newWid : Nat)
  | connection_failed (server : String) (wid : Option Nat)
  | server_list_obtained
  | pool_at_max (poolMax : Int)
  | pool_recreated
  | pool_disposed
  deriving Repr, DecidableEq

/-- Exceptions surfaced by the pool code (pool.py lines 995-1014), plus the
Python-level failures the source can raise: assert statements
(AssertionError), attribute access on None (AttributeError), and an
uncaught queue.Full. -/
inductive PoolError
  | invalidRequest (msg : String)
  | noConnectionAvailable
  | allServersUnavailable
  | maximumRetry (count : Nat)
  | assertionFailed (msg : String)
  | attributeError (msg : String)
  | queueFull
  deriving Repr, DecidableEq

/-- ConnectionWrapper._replace (pool.py lines 428-442): adopt the
replacement wrapper transport, protocol handles, lock and operation count,
set state to CHECKED_OUT and copy the fail-once flag.  Lines 438-439 of the
source assign the replacement info and starttime to the attributes _info
and _starttime, which are distinct from the info and starttime attributes
set in __init__; the record therefore stores them in the shadow fields and
leaves info and starttime unchanged.  wid, server, retry_count and
max_retries are not touched by the source. -/
def replaceWrapper (self : ConnectionWrapper) (newW : ConnectionWrapper) : ConnectionWrapper :=
  { self with
    transport := newW.transport
    iprot := newW.iprot
    oprot := newW.oprot
    lock := newW.lock
    shadowInfo := some newW.info
    shadowStarttime := some newW.starttime
    operation_count := newW.operation_count
    state := WState.checkedOut
    should_fail := newW.should_fail }

/-- ConnectionWrapper._dispose_wrapper (pool.py lines 415-426): a second
dispose raises InvalidRequestError; otherwise the state becomes DISPOSED,
the transport is closed and a connection_disposed event fires. -/
def disposeWrapper (conn : ConnectionWrapper) :
    Except PoolError (ConnectionWrapper × Event) :=
  if conn.state = WState.disposed then
    Except.error (PoolError.invalidRequest "A connection has been disposed twice.")
  else
    Except.ok ({ conn with state := WState.disposed }, Event.connection_disposed conn.wid)

/-- Modelled from the spec: the vendored queue module imported as pool_queue
in pool.py is not under src.  The spec describes the idle queue as a
thread-safe bounded FIFO with non-blocking put; put fails with Full when
the queue is bounded and already holds cap elements, and a capacity of
zero leaves the queue unbounded, as in the underlying queue semantics. -/
def queuePut (cap : Nat) (q : List ConnectionWrapper) (w : ConnectionWrapper) :
    Option (List ConnectionWrapper) :=
  if 0 < cap ∧ cap ≤ q.length then none else some (q ++ [w])

/-- Modelled from the spec: pop of the bounded FIFO.  Sequentially, the
blocking get with timeout returns the oldest element when the queue is
non-empty and fails with Empty when it holds nothing. -/
def queueGet (q : List ConnectionWrapper) :
    Option (ConnectionWrapper × List ConnectionWrapper) :=
  match q with
  | [] => none
  | w :: rest => some (w, rest)

/-- The thread-local slot self._tlocal.current of the calling thread.
unset: the attribute was never assigned (hasattr is false and reading it
raises AttributeError).  cleared: the attribute holds None.  ref live:
the attribute holds a weak reference whose dereference yields live
(none when the referent has been collected). -/
inductive TLocal
  | unset
  | cleared
  | ref (live : Option ConnectionWrapper)
  deriving Repr, DecidableEq

/-- QueuePool state: the constructor parameters retained on self (pool.py
lines 607-623), the rotor position of the server list (line 131), a fresh
counter supplying object identities and the idle queue contents. -/
structure PoolState where
  server_list : List String
  list_position : Nat
  fresh : Nat
  pool_size : Nat
  max_overflow : Int
  overflow : Int
  recycle : Int
  max_retries : Int
  threadlocal : Bool
  tlocal : TLocal
  queue : List ConnectionWrapper
  deriving Repr, DecidableEq

/-- QueuePool.checkedin (pool.py lines 762-763): the idle queue depth. -/
def checkedin (st : PoolState) : Nat := st.queue.length

/-- QueuePool.checkedout (pool.py lines 768-769). -/
def checkedout (st : PoolState) : Int :=
  (st.pool_size : Int) - (st.queue.length : Int) + st.overflow

/-- Environment for connection creation: connectOk p tells whether the
attempt made at rotor position p succeeds (false models the opaque
Connection constructor raising a Thrift.TException, which covers the
transient transport errors); now gives the creation instant of the n-th
wrapper; shuffle is the random permutation applied by set_server_list
(pool.py lines 123-129), abstracted as an environment-chosen function. -/
structure CreateEnv where
  connectOk : Nat → Bool
  now : Nat → Nat
  shuffle : List String → List String

/-- Outcome of Pool._create_connection: the events fired, the final rotor
position and fresh counter, and the wrapper or the error. -/
structure CreateOut where
  events : List Event
  pos : Nat
  fresh : Nat
  result : Except PoolError ConnectionWrapper

/-- Pool._get_next_server (pool.py lines 134-143): the server at the rotor
position modulo the list length. -/
def serverAt (servers : List String) (pos : Nat) : String :=
  servers.getD (pos % servers.length) ""

/-- Pool._create_connection (pool.py lines 145-158): loop while
failure_count is below twice the server list length; each iteration takes
the next server from the rotor and asks for a new wrapper; on failure a
connection_failed event fires (with connection None) and the loop
continues; on exhausting the budget AllServersUnavailable is raised.  The
fuel argument is the remaining failure budget. -/
def createLoop (env : CreateEnv) (mr : Int) (servers : List String) :
    Nat → Nat → Nat → CreateOut
  | 0, pos, fresh =>
    { events := [], pos := pos, fresh := fresh,
      result := Except.error PoolError.allServersUnavailable }
  | fuel + 1, pos, fresh =>
    if env.connectOk pos then
      { events := [Event.connection_created fresh]
        pos := pos + 1
        fresh := fresh + 1
        result := Except.ok (mkWrapper fresh (serverAt servers pos) (env.now fresh) mr) }
    else
      { events := Event.connection_failed (serverAt servers pos) none ::
          (createLoop env mr servers fuel (pos + 1) fresh).events
        pos := (createLoop env mr servers fuel (pos + 1) fresh).pos
        fresh := (createLoop env mr servers fuel (pos + 1) fresh).fresh
        result := (createLoop env mr servers fuel (pos + 1) fresh).result }

/-- Pool._create_connection on the pool state: runs the loop with budget
twice the server list length, threading the rotor and the fresh counter
(QueuePool._get_new_wrapper passes the pool max_retries, pool.py lines
641-646). -/
def createConnection (env : CreateEnv) (st : PoolState) :
    PoolState × List Event × Except PoolError ConnectionWrapper :=
  ({ st with
      list_position := (createLoop env st.max_retries st.server_list
        (2 * st.server_list.length) st.list_position st.fresh).pos
      fresh := (createLoop env st.max_retries st.server_list
        (2 * st.server_list.length) st.list_position st.fresh).fresh },
   (createLoop env st.max_retries st.server_list
        (2 * st.server_list.length) st.list_position st.fresh).events,
   (createLoop env st.max_retries st.server_list
        (2 * st.server_list.length) st.list_position st.fresh).result)

/-- Outcome of QueuePool._put_conn as seen by its caller: the enqueued
wrapper on success, the wrapper object the local name conn denotes when
queue.Full escapes, or another exception propagating. -/
inductive PutConnOut
  | ok (enqueued : ConnectionWrapper)
  | full (conn : ConnectionWrapper)
  | err (e : PoolError)
  deriving Repr

/-- QueuePool._put_conn (pool.py lines 686-696): when recycling applies
(recycle above -1 and the operation count above it), create a replacement,
fire connection_recycled, dispose the old wrapper and push the
replacement; otherwise push the wrapper.  A Full raised by the push
escapes to the caller; in the recycle branch the old wrapper has already
been disposed when that happens. -/
def putConn (env : CreateEnv) (st : PoolState) (conn : ConnectionWrapper) :
    PoolState × List Event × PutConnOut :=
  if st.recycle > -1 ∧ (conn.operation_count : Int) > st.recycle then
    match createConnection env st with
    | (st1, evs, Except.error e) => (st1, evs, PutConnOut.err e)
    | (st1, evs, Except.ok newConn) =>
      match disposeWrapper conn with
      | Except.error e =>
        (st1, evs ++ [Event.connection_recycled conn.wid newConn.wid], PutConnOut.err e)
      | Except.ok (oldDisposed, dEv) =>
        match queuePut st1.pool_size st1.queue newConn with
        | some q =>
          ({ st1 with queue := q },
           evs ++ [Event.connection_recycled conn.wid newConn.wid, dEv],
           PutConnOut.ok newConn)
        | none =>
          (st1, evs ++ [Event.connection_recycled conn.wid newConn.wid, dEv],
           PutConnOut.full oldDisposed)
  else
    match queuePut st.pool_size st.queue conn with
    | some q => ({ st with queue := q }, [], PutConnOut.ok conn)
    | none => (st, [], PutConnOut.full conn)

/-- The queue.Full handler of QueuePool._do_return_conn (pool.py lines
670-684): if the wrapper reports state IN_QUEUE, raise InvalidRequestError;
otherwise dispose it with reason pool is already full, decrement overflow
and fire connection_checked_in. -/
def checkinFullHandler (st : PoolState) (conn : ConnectionWrapper) (evs : List Event) :
    PoolState × List Event × Except PoolError Unit :=
  if conn.state = WState.inQueue then
    (st, evs,
     Except.error (PoolError.invalidRequest
       "A connection was returned to the connection pool twice."))
  else
    match disposeWrapper conn with
    | Except.error e => (st, evs, Except.error e)
    | Except.ok (_, dEv) =>
      ({ st with overflow := st.overflow - 1 },
       evs ++ [dEv, Event.connection_checked_in conn.wid],
       Except.ok ())

/-- The shared tail of QueuePool._do_return_conn (pool.py lines 663-669):
reset retry_count to zero, put the connection and fire
connection_checked_in, with the queue.Full handler around it. -/
def checkinCore (env : CreateEnv) (st : PoolState) (conn : ConnectionWrapper) :
    PoolState × List Event × Except PoolError Unit :=
  match putConn env st { conn with retry_count := 0 } with
  | (st1, evs, PutConnOut.ok enq) =>
    (st1, evs ++ [Event.connection_checked_in enq.wid], Except.ok ())
  | (st1, evs, PutConnOut.full c) => checkinFullHandler st1 c evs
  | (st1, evs, PutConnOut.err e) => (st1, evs, Except.error e)

/-- QueuePool._do_return_conn (pool.py lines 656-684).  In thread-local
mode the record argument is never consulted: the wrapper checked in is the
dereference of the thread slot.  An unset slot (hasattr false) and a slot
holding None both return silently; a slot holding a dead weak reference
dereferences to None, the slot is set to None, and the subsequent
attribute assignment on None raises AttributeError.  Without thread-local
mode the record itself is checked in. -/
def doReturnConn (env : CreateEnv) (st : PoolState) (record : ConnectionWrapper) :
    PoolState × List Event × Except PoolError Unit :=
  if st.threadlocal then
    match st.tlocal with
    | TLocal.unset => (st, [], Except.ok ())
    | TLocal.cleared => (st, [], Except.ok ())
    | TLocal.ref none =>
      ({ st with tlocal := TLocal.cleared }, [],
       Except.error (PoolError.attributeError
         "NoneType object has no attribute retry count"))
    | TLocal.ref (some w) => checkinCore env { st with tlocal := TLocal.cleared } w
  else
    checkinCore env st record

/-- The tail of QueuePool._do_get (pool.py lines 734-737): store a weak
reference to the wrapper in the thread slot when thread-local mode is on,
fire connection_checked_out and hand the wrapper out. -/
def finishGet (st : PoolState) (w : ConnectionWrapper) :
    PoolState × List Event × Except PoolError ConnectionWrapper :=
  if st.threadlocal then
    ({ st with tlocal := TLocal.ref (some w) },
     [Event.connection_checked_out w.wid], Except.ok w)
  else
    (st, [Event.connection_checked_out w.wid], Except.ok w)

/-- QueuePool._do_get (pool.py lines 698-737).  A live thread-local
wrapper is returned at once with no queue operation and no event (an unset
slot raises AttributeError which is caught; None and a dead weak
reference fall through).  Otherwise pop the idle queue; on Empty, when
overflow has reached max_overflow fire pool_at_max with size plus
overflow and raise NoConnectionAvailable, else create a connection and
increment overflow, propagating AllServersUnavailable. -/
def doGet (env : CreateEnv) (st : PoolState) :
    PoolState × List Event × Except PoolError ConnectionWrapper :=
  match st.threadlocal, st.tlocal with
  | true, TLocal.ref (some w) => (st, [], Except.ok w)
  | _, _ =>
    match queueGet st.queue with
    | some (w, rest) => finishGet { st with queue := rest } w
    | none =>
      if st.overflow ≥ st.max_overflow then
        (st, [Event.pool_at_max ((st.pool_size : Int) + st.overflow)],
         Except.error PoolError.noConnectionAvailable)
      else
        match createConnection env st with
        | (st1, evs, Except.error e) => (st1, evs, Except.error e)
        | (st1, evs, Except.ok w) =>
          match finishGet { st1 with overflow := st1.overflow + 1 } w with
          | (st2, evs2, r2) => (st2, evs ++ evs2, r2)

/-- The prefill loop of QueuePool.__init__ (pool.py lines 618-620): create
pool_size connections and put each into the queue non-blockingly.  A Full
raised by a put would escape the constructor. -/
def prefillLoop (env : CreateEnv) : Nat → PoolState → PoolState × List Event × Except PoolError Unit
  | 0, st => (st, [], Except.ok ())
  | i + 1, st =>
    match createConnection env st with
    | (st1, evs, Except.error e) => (st1, evs, Except.error e)
    | (st1, evs, Except.ok w) =>
      match queuePut st1.pool_size st1.queue w with
      | none => (st1, evs, Except.error PoolError.queueFull)
      | some q =>
        match prefillLoop env i { st1 with queue := q } with
        | (st2, evs2, r2) => (st2, evs ++ evs2, r2)

/-- QueuePool.__init__ (pool.py lines 535-623) together with
Pool.__init__ and set_server_list (lines 33-132): the five asserts run
first, in source order; then the server list is installed (asserting it
non-empty before the random permutation, which the environment chooses)
and server_list_obtained fires; with prefill, pool_size connections are
created into the queue and overflow starts at 0, otherwise overflow
starts at minus pool_size. -/
def queuePoolInit (env : CreateEnv) (servers : List String)
    (pool_size max_overflow pool_timeout recycle max_retries : Int)
    (prefill use_threadlocal : Bool) :
    List Event × Except PoolError PoolState :=
  if pool_size < 0 then
    ([], Except.error (PoolError.assertionFailed "pool_size must be non-negative"))
  else if max_overflow < 0 then
    ([], Except.error (PoolError.assertionFailed "max_overflow must be non-negative"))
  else if pool_timeout < 0 then
    ([], Except.error (PoolError.assertionFailed "pool_timeout must be non-negative"))
  else if max_retries < 0 then
    ([], Except.error (PoolError.assertionFailed "max_retries must be non-negative"))
  else if recycle ≤ 0 then
    ([], Except.error (PoolError.assertionFailed "recycle must be positive"))
  else if servers.length = 0 then
    ([], Except.error (PoolError.assertionFailed "server list must not be empty"))
  else
    match prefill with
    | true =>
      match prefillLoop env pool_size.toNat
          { server_list := env.shuffle servers, list_position := 0, fresh := 0,
            pool_size := pool_size.toNat, max_overflow := max_overflow,
            overflow := 0, recycle := recycle, max_retries := max_retries,
            threadlocal := use_threadlocal, tlocal := TLocal.unset, queue := [] } with
      | (_, evs, Except.error e) => (Event.server_list_obtained :: evs, Except.error e)
      | (st1, evs, Except.ok _) => (Event.server_list_obtained :: evs, Except.ok st1)
    | false =>
      ([Event.server_list_obtained],
       Except.ok
         { server_list := env.shuffle servers, list_position := 0, fresh := 0,
           pool_size := pool_size.toNat, max_overflow := max_overflow,
           overflow := -pool_size, recycle := recycle, max_retries := max_retries,
           threadlocal := use_threadlocal, tlocal := TLocal.unset, queue := [] })

/-- Sequential composition get then return_conn of the obtained wrapper
(Pool.get and Pool.return_conn, pool.py lines 180-194). -/
def roundTrip (env : CreateEnv) (st : PoolState) :
    PoolState × List Event × Except PoolError Unit :=
  match doGet env st with
  | (st1, evs1, Except.error e) => (st1, evs1, Except.error e)
  | (st1, evs1, Except.ok w) =>
    match doReturnConn env st1 w with
    | (st2, evs2, r2) => (st2, evs1 ++ evs2, r2)

/-- Outcome of one delegated transport call inside the retry interceptor:
success, a transient error (TimedOutException or UnavailableException), or
any other (fatal) exception. -/
inductive RpcOutcome
  | ok
  | transient
  | fatal
  deriving Repr, DecidableEq

/-- How a retriable RPC invocation ends. -/
inductive RpcResult
  | success
  | maxRetry (count : Nat)
  | fatal
  deriving Repr, DecidableEq

/-- What one invocation of a retriable RPC produces: the events it fires,
the final contents of the caller-held wrapper, the number of delegated
transport attempts, the number of close calls it performed, and the
outcome (none marks exhausted fuel). -/
structure RetryOut where
  events : List Event
  wrapper : ConnectionWrapper
  attempts : Nat
  closes : Nat
  result : Option RpcResult
  deriving Repr, DecidableEq

/-- Increment of operation_count at the top of the interceptor (pool.py
line 446). -/
def bumpOp (w : ConnectionWrapper) : ConnectionWrapper :=
  { w with operation_count := w.operation_count + 1 }

/-- Increment of retry_count after a transient error (pool.py line 453). -/
def bumpRetry (w : ConnectionWrapper) : ConnectionWrapper :=
  { w with retry_count := w.retry_count + 1 }

/-- Accumulate one failed-and-failed-over attempt in front of the rest of
the run: its connection_failed event, one more attempt, one more close. -/
def consRetry (ev : Event) (out : RetryOut) : RetryOut :=
  { events := ev :: out.events, wrapper := out.wrapper,
    attempts := out.attempts + 1, closes := out.closes + 1, result := out.result }

/-- ConnectionWrapper._retry (pool.py lines 444-469), the interceptor
around each retriable RPC.  tr k is the outcome of the k-th delegated
transport call; sup k is the CHECKED_OUT wrapper that the k-th failover
checkout (self._pool.get() on line 466) returns - the pool interaction of
the failover path (close, clearing the thread-local slot, the best-effort
_replace_wrapper, the checkout itself) is abstracted into that supplier,
which matches the settled claims where replacement connections are
available while every RPC attempt fails.  Each step increments
operation_count, delegates, and on a transient error fires
connection_failed with the wrapper server, increments retry_count, raises
MaximumRetryException when max_retries is not -1 and retry_count exceeds
it, and otherwise closes the transport, splices a fresh wrapper into self
via _replace and retries.  fuel bounds the recursion. -/
def retryRun (tr : Nat → RpcOutcome) (sup : Nat → ConnectionWrapper) :
    Nat → Nat → ConnectionWrapper → RetryOut
  | 0, _, w =>
    { events := [], wrapper := w, attempts := 0, closes := 0, result := none }
  | fuel + 1, k, w =>
    match tr k with
    | RpcOutcome.ok =>
      { events := [], wrapper := bumpOp w, attempts := 1, closes := 0,
        result := some RpcResult.success }
    | RpcOutcome.fatal =>
      { events := [], wrapper := bumpOp w, attempts := 1, closes := 0,
        result := some RpcResult.fatal }
    | RpcOutcome.transient =>
      if (bumpRetry (bumpOp w)).max_retries ≠ -1 ∧
          (bumpRetry (bumpOp w)).max_retries < ((bumpRetry (bumpOp w)).retry_count : Int) then
        { events := [Event.connection_failed w.server (some w.wid)]
          wrapper := bumpRetry (bumpOp w)
          attempts := 1
          closes := 0
          result := some (RpcResult.maxRetry (bumpRetry (bumpOp w)).retry_count) }
      else
        consRetry (Event.connection_failed w.server (some w.wid))
          (retryRun tr sup fuel (k + 1) (replaceWrapper (bumpRetry (bumpOp w)) (sup k)))

/-- Recognize a connection_failed event. -/
def isConnFailedEvent : Event → Bool
  | Event.connection_failed _ _ => true
  | _ => false

/-- Number of connection_failed events in a stream. -/
def countConnFailed : List Event → Nat
  | [] => 0
  | e :: evs => (if isConnFailedEvent e then 1 else 0) + countConnFailed evs

/-- The event stream produced by the failed creation attempts at rotor
positions pos, pos+1, ... : one connection_failed per attempt, carrying
the server the rotor selected and no connection. -/
def failEvents (servers : List String) : Nat → Nat → List Event
  | _, 0 => []
  | pos, c + 1 =>
    Event.connection_failed (serverAt servers pos) none :: failEvents servers (pos + 1) c

/-- The calling thread holds no live cached wrapper: thread-local mode is
off, or the slot is unset, explicitly None, or a dead weak reference. -/
def noLiveTLocal (st : PoolState) : Prop :=
  st.threadlocal = false ∨ st.tlocal = TLocal.unset ∨ st.tlocal = TLocal.cleared ∨
    st.tlocal = TLocal.ref none

/-- Project an Except outcome to the raised error, if any. -/
def exceptOutcome {α : Type} : Except PoolError α → Option PoolError
  | Except.error e => some e
  | Except.ok _ => none

/-- The wrapper states of the idle queue after construction, when
construction succeeds. -/
def initQueueStates (r : List Event × Except PoolError PoolState) : Option (List WState) :=
  match r.2 with
  | Except.error _ => none
  | Except.ok st => some (st.queue.map (fun w => w.state))

/-- Environment in which every connection attempt succeeds. -/
def envAllOk : CreateEnv :=
  { connectOk := fun _ => true, now := fun _ => 0, shuffle := id }

/-- Environment in which every connection attempt fails. -/
def envNoneOk : CreateEnv :=
  { connectOk := fun _ => false, now := fun _ => 0, shuffle := id }

/-- Caller-held wrapper for the splice scenario: created at instant 100,
with some accumulated counters. -/
def c2Self : ConnectionWrapper :=
  { mkWrapper 0 "a:1" 100 5 with operation_count := 7, retry_count := 3 }

/-- Replacement wrapper for the splice scenario: bound to a different
server, created at instant 200. -/
def c2New : ConnectionWrapper :=
  { mkWrapper 1 "b:1" 200 5 with operation_count := 4 }

/-- The double-return scenario: a prefilled pool of size one without
thread-local mode; get, return, then return the same wrapper again.  The
payload is the outcome and events of the second return (none when the
scenario takes an unexpected path). -/
def c3Run : Option (Option PoolError × List Event) :=
  match (queuePoolInit envAllOk ["a:1"] 1 10 30 10000 5 true false).2 with
  | Except.error _ => none
  | Except.ok st0 =>
    match doGet envAllOk st0 with
    | (_, _, Except.error _) => none
    | (st1, _, Except.ok w) =>
      match doReturnConn envAllOk st1 w with
      | (_, _, Except.error _) => none
      | (st2, _, Except.ok _) =>
        match st2.queue with
        | [w1] =>
          match doReturnConn envAllOk st2 w1 with
          | (_, evs3, r3) => some (exceptOutcome r3, evs3)
        | _ => none

/-- A non-prefilled pool of size one with an empty idle queue: the next
get must mint an overflow connection. -/
def c8St : PoolState :=
  { server_list := ["a:1"], list_position := 0, fresh := 0, pool_size := 1,
    max_overflow := 10, overflow := -1, recycle := 10000, max_retries := 5,
    threadlocal := false, tlocal := TLocal.unset, queue := [] }

/-- The idle wrapper of the hit-path round-trip scenario. -/
def c8HitW : ConnectionWrapper := mkWrapper 0 "a:1" 0 5

/-- A pool whose idle queue holds one wrapper, in thread-local mode with
an empty slot: the next get is served from the queue. -/
def c8HitSt : PoolState :=
  { server_list := ["a:1"], list_position := 1, fresh := 1, pool_size := 1,
    max_overflow := 10, overflow := 0, recycle := 10000, max_retries := 5,
    threadlocal := true, tlocal := TLocal.unset, queue := [c8HitW] }

/-- A thread-local pool whose slot holds a dead weak reference. -/
def c9St : PoolState :=
  { server_list := ["a:1"], list_position := 0, fresh := 0, pool_size := 1,
    max_overflow := 10, overflow := -1, recycle := 10000, max_retries := 5,
    threadlocal := true, tlocal := TLocal.ref none, queue := [] }

/-- An arbitrary record passed to return_conn. -/
def c9Record : ConnectionWrapper := mkWrapper 7 "a:1" 0 5

/-- The wrapper cached in the thread slot of the live-slot scenario. -/
def c9LiveW : ConnectionWrapper := mkWrapper 3 "a:1" 0 5

/-- A thread-local pool whose slot holds a live wrapper and whose queue
has room. -/
def c9LiveSt : PoolState :=
  { server_list := ["a:1"], list_position := 1, fresh := 1, pool_size := 1,
    max_overflow := 10, overflow := 0, recycle := 10000, max_retries := 5,
    threadlocal := true, tlocal := TLocal.ref (some c9LiveW), queue := [] }

/-- Pool state for the creation-exhaustion scenario: two servers, rotor at
the start. -/
def c6St : PoolState :=
  { server_list := ["a:1", "b:1"], list_position := 0, fresh := 0, pool_size := 2,
    max_overflow := 10, overflow := 0, recycle := 10000, max_retries := 5,
    threadlocal := false, tlocal := TLocal.unset, queue := [] }

/-- Pool state with an empty queue and overflow at its ceiling. -/
def c7St : PoolState :=
  { server_list := ["a:1"], list_position := 0, fresh := 0, pool_size := 2,
    max_overflow := 3, overflow := 3, recycle := 10000, max_retries := 5,
    threadlocal := false, tlocal := TLocal.unset, queue := [] }

/-- A freshly created wrapper whose pool allows two retries. -/
def c1W : ConnectionWrapper := mkWrapper 0 "a:1" 0 2

/-- Supplier of replacement wrappers for failover checkouts. -/
def c1Sup : Nat → ConnectionWrapper := fun k => mkWrapper (100 + k) "b:1" 0 2

/-- A freshly created wrapper whose pool allows one retry. -/
def c10W : ConnectionWrapper := mkWrapper 0 "a:1" 0 1

/-- A non-threadlocal pool with room in its queue, receiving the wrapper
back after the retry ceiling was hit. -/
def c10RetSt : PoolState :=
  { server_list := ["a:1"], list_position := 0, fresh := 0, pool_size := 1,
    max_overflow := 10, overflow := 0, recycle := 10000, max_retries := 1,
    threadlocal := false, tlocal := TLocal.unset, queue := [] }

@[simp] theorem bumpOp_retry_count (w : ConnectionWrapper) :
    (bumpOp w).retry_count = w.retry_count := rfl

@[simp] theorem bumpOp_max_retries (w : ConnectionWrapper) :
    (bumpOp w).max_retries = w.max_retries := rfl

@[simp] theorem bumpOp_operation_count (w : ConnectionWrapper) :
    (bumpOp w).operation_count = w.operation_count + 1 := rfl

@[simp] theorem bumpRetry_retry_count (w : ConnectionWrapper) :
    (bumpRetry w).retry_count = w.retry_count + 1 := rfl

@[simp] theorem bumpRetry_max_retries (w : ConnectionWrapper) :
    (bumpRetry w).max_retries = w.max_retries := rfl

@[simp] theorem replaceWrapper_retry_count (a b : ConnectionWrapper) :
    (replaceWrapper a b).retry_count = a.retry_count := rfl

@[simp] theorem replaceWrapper_max_retries (a b : ConnectionWrapper) :
    (replaceWrapper a b).max_retries = a.max_retries := rfl

@[simp] theorem replaceWrapper_starttime (a b : ConnectionWrapper) :
    (replaceWrapper a b).starttime = a.starttime := rfl

@[simp] theorem replaceWrapper_wid (a b : ConnectionWrapper) :
    (replaceWrapper a b).wid = a.wid := rfl

@[simp] theorem consRetry_result (ev : Event) (out : RetryOut) :
    (consRetry ev out).result = out.result := rfl

@[simp] theorem consRetry_attempts (ev : Event) (out : RetryOut) :
    (consRetry ev out).attempts = out.attempts + 1 := rfl

@[simp] theorem consRetry_closes (ev : Event) (out : RetryOut) :
    (consRetry ev out).closes = out.closes + 1 := rfl

@[simp] theorem consRetry_events (ev : Event) (out : RetryOut) :
    (consRetry ev out).events = ev :: out.events := rfl

@[simp] theorem consRetry_wrapper (ev : Event) (out : RetryOut) :
    (consRetry ev out).wrapper = out.wrapper := rfl

@[simp] theorem countConnFailed_cons_failed (s : String) (oid : Option Nat)
    (evs : List Event) :
    countConnFailed (Event.connection_failed s oid :: evs) = 1 + countConnFailed evs := rfl

/-- When every delegated transport call raises a transient error and the
wrapper enforces a ceiling of m retries, a run with enough fuel ends in
MaximumRetryException with count m + 1; it makes one transport attempt
and fires one connection_failed event per remaining allowance, closes the
transport once per failover (one fewer than the attempts), and leaves
retry_count at m + 1 with the ceiling untouched. -/
theorem retryRun_all_transient (tr : Nat → RpcOutcome) (sup : Nat → ConnectionWrapper)
    (htr : ∀ k, tr k = RpcOutcome.transient) (m : Nat) :
    ∀ (fuel k : Nat) (w : ConnectionWrapper),
      w.max_retries = (m : Int) → w.retry_count ≤ m → m + 1 - w.retry_count ≤ fuel →
      (retryRun tr sup fuel k w).result = some (RpcResult.maxRetry (m + 1)) ∧
      (retryRun tr sup fuel k w).attempts = m + 1 - w.retry_count ∧
      (retryRun tr sup fuel k w).closes = m - w.retry_count ∧
      countConnFailed (retryRun tr sup fuel k w).events = m + 1 - w.retry_count ∧
      (retryRun tr sup fuel k w).wrapper.retry_count = m + 1 ∧
      (retryRun tr sup fuel k w).wrapper.max_retries = (m : Int) := by
  intro fuel
  induction fuel with
  | zero =>
    intro k w hmr hrc hfuel
    omega
  | succ fuel ih =>
    intro k w hmr hrc hfuel
    have hrw : retryRun tr sup (fuel + 1) k w =
        (if (bumpRetry (bumpOp w)).max_retries ≠ -1 ∧
            (bumpRetry (bumpOp w)).max_retries < ((bumpRetry (bumpOp w)).retry_count : Int) then
          { events := [Event.connection_failed w.server (some w.wid)]
            wrapper := bumpRetry (bumpOp w)
            attempts := 1
            closes := 0
            result := some (RpcResult.maxRetry (bumpRetry (bumpOp w)).retry_count) }
        else
          consRetry (Event.connection_failed w.server (some w.wid))
            (retryRun tr sup fuel (k + 1)
              (replaceWrapper (bumpRetry (bumpOp w)) (sup k)))) := by
      simp only [retryRun, htr k]
    rw [hrw]
    by_cases hcase : w.retry_count = m
    · rw [if_pos]
      · refine ⟨?_, ?_, ?_, ?_, ?_, ?_⟩ <;>
          simp [countConnFailed, isConnFailedEvent, hcase, hmr]
      · refine ⟨?_, ?_⟩ <;>
          simp only [bumpRetry_max_retries, bumpOp_max_retries,
            bumpRetry_retry_count, bumpOp_retry_count, hmr, hcase] <;> omega
    · have hlt : w.retry_count < m := lt_of_le_of_ne hrc hcase
      rw [if_neg]
      · have hw3mr : (replaceWrapper (bumpRetry (bumpOp w)) (sup k)).max_retries = (m : Int) := by
          simp [hmr]
        have hw3rc : (replaceWrapper (bumpRetry (bumpOp w)) (sup k)).retry_count =
            w.retry_count + 1 := by
          simp
        have hx1 : (replaceWrapper (bumpRetry (bumpOp w)) (sup k)).retry_count ≤ m := by
          rw [hw3rc]; omega
        have hx2 : m + 1 - (replaceWrapper (bumpRetry (bumpOp w)) (sup k)).retry_count ≤ fuel := by
          rw [hw3rc]; omega
        obtain ⟨h1, h2, h3, h4, h5, h6⟩ :=
          ih (k + 1) (replaceWrapper (bumpRetry (bumpOp w)) (sup k)) hw3mr hx1 hx2
        rw [hw3rc] at h2 h3 h4
        refine ⟨?_, ?_, ?_, ?_, ?_, ?_⟩
        · simpa using h1
        · rw [consRetry_attempts, h2]; omega
        · rw [consRetry_closes, h3]; omega
        · rw [consRetry_events, countConnFailed_cons_failed, h4]
          omega
        · simpa using h5
        · simpa using h6
      · simp only [bumpRetry_max_retries, bumpOp_max_retries,
          bumpRetry_retry_count, bumpOp_retry_count, hmr]
        rintro ⟨-, hb⟩
        omega

/-- A wrapper whose retry_count already exceeds its ceiling raises
MaximumRetryException on the very first transient error of the next
retriable call: a single transport attempt, no close. -/
theorem retryRun_over_ceiling (tr : Nat → RpcOutcome) (sup : Nat → ConnectionWrapper)
    (m : Nat) (w : ConnectionWrapper)
    (hmr : w.max_retries = (m : Int)) (hrc : m < w.retry_count)
    (fuel k : Nat) (hf : 1 ≤ fuel) (htr : tr k = RpcOutcome.transient) :
    (retryRun tr sup fuel k w).result = some (RpcResult.maxRetry (w.retry_count + 1)) ∧
    (retryRun tr sup fuel k w).attempts = 1 ∧
    (retryRun tr sup fuel k w).closes = 0 ∧
    countConnFailed (retryRun tr sup fuel k w).events = 1 := by
  obtain ⟨fuel, rfl⟩ : ∃ f, fuel = f + 1 := ⟨fuel - 1, by omega⟩
  simp only [retryRun, htr]
  rw [if_pos]
  · exact ⟨rfl, rfl, rfl, rfl⟩
  · refine ⟨?_, ?_⟩ <;>
      simp only [bumpRetry_max_retries, bumpOp_max_retries,
        bumpRetry_retry_count, bumpOp_retry_count, hmr] <;> omega

/-- Claim C1: for every QueuePool with max_retries = m at least 0, if
every delegated transport call of a retriable RPC raises a transient
error (TimedOutException or UnavailableException), a single invocation of
that RPC on a checked-out wrapper (retry_count 0, with replacement
checkouts available) raises MaximumRetryException after exactly m + 1
transport attempts, and connection_failed is emitted exactly m + 1 times,
once per attempt. -/
theorem C1_retry_ceiling (m : Nat) (tr : Nat → RpcOutcome) (sup : Nat → ConnectionWrapper)
    (w : ConnectionWrapper) (hmr : w.max_retries = (m : Int)) (hrc : w.retry_count = 0)
    (htr : ∀ k, tr k = RpcOutcome.transient) (fuel : Nat) (hfuel : m + 1 ≤ fuel) :
    (retryRun tr sup fuel 0 w).result = some (RpcResult.maxRetry (m + 1)) ∧
    (retryRun tr sup fuel 0 w).attempts = m + 1 ∧
    countConnFailed (retryRun tr sup fuel 0 w).events = m + 1 := by
  obtain ⟨h1, h2, h3, h4, h5, h6⟩ :=
    retryRun_all_transient tr sup htr m fuel 0 w hmr (by omega) (by omega)
  refine ⟨h1, ?_, ?_⟩
  · rw [h2, hrc]; omega
  · rw [h4, hrc]; omega

/-- Witness for C1 at m = 2: three attempts, three connection_failed
events, MaximumRetryException reporting three retries. -/
theorem C1_retry_ceiling_witness :
    (retryRun (fun _ => RpcOutcome.transient) c1Sup 3 0 c1W).result =
      some (RpcResult.maxRetry 3) ∧
    (retryRun (fun _ => RpcOutcome.transient) c1Sup 3 0 c1W).attempts = 3 ∧
    countConnFailed (retryRun (fun _ => RpcOutcome.transient) c1Sup 3 0 c1W).events = 3 :=
  C1_retry_ceiling 2 (fun _ => RpcOutcome.transient) c1Sup c1W rfl rfl
    (fun _ => rfl) 3 (by omega)

/-- Claim C2, at the failing input: _replace adopts the replacement
transport, protocol handles, lock and op_count, sets state CHECKED_OUT and
retargets the transport to the replacement server while the caller-held
object identity survives; but the replacement starttime lands in the
separate _starttime attribute and the starttime field set by __init__ is
left unchanged, so start_time is not adopted. -/
theorem C2_replace_splice :
    (replaceWrapper c2Self c2New).transport = c2New.transport ∧
    (replaceWrapper c2Self c2New).iprot = c2New.iprot ∧
    (replaceWrapper c2Self c2New).oprot = c2New.oprot ∧
    (replaceWrapper c2Self c2New).lock = c2New.lock ∧
    (replaceWrapper c2Self c2New).operation_count = c2New.operation_count ∧
    (replaceWrapper c2Self c2New).state = WState.checkedOut ∧
    (replaceWrapper c2Self c2New).transport.server = c2New.server ∧
    (replaceWrapper c2Self c2New).wid = c2Self.wid ∧
    (replaceWrapper c2Self c2New).shadowStarttime = some c2New.starttime ∧
    (replaceWrapper c2Self c2New).starttime = c2Self.starttime ∧
    c2Self.starttime ≠ c2New.starttime :=
  ⟨rfl, rfl, rfl, rfl, rfl, rfl, rfl, rfl, rfl, rfl, by decide⟩

/-- Claim C3, at the failing input: on a prefilled non-threadlocal pool of
size one, get then return then a second return of the same wrapper does
not raise InvalidRequestError - it succeeds, disposing the wrapper and
emitting a second connection_checked_in (the wrapper sitting in the queue
never has state IN_QUEUE, so the double-return guard cannot fire). -/
theorem C3_double_return :
    c3Run = some (none,
      [Event.connection_disposed 0, Event.connection_checked_in 0]) := rfl

/-- Claim C4, at the failing input: after constructing a prefilled
QueuePool of size one, the wrapper sitting in the idle queue has state
CHECKED_OUT, not IN_QUEUE - no code path ever invokes the _checkin
transition. -/
theorem C4_idle_queue_state :
    initQueueStates (queuePoolInit envAllOk ["a:1"] 1 10 30 10000 5 true true) =
      some [WState.checkedOut] := rfl

/-- Claim C5, at the failing input: constructing a QueuePool with
max_overflow = -1 does not succeed; the assert on line 602 of pool.py
raises AssertionError before anything else happens. -/
theorem C5_max_overflow_assert :
    (queuePoolInit envAllOk ["a:1"] 5 (-1) 30 10000 5 true true).1 = [] ∧
    exceptOutcome (queuePoolInit envAllOk ["a:1"] 5 (-1) 30 10000 5 true true).2 =
      some (PoolError.assertionFailed "max_overflow must be non-negative") :=
  ⟨rfl, rfl⟩

/-- When no recycle fires and the queue has room, checking a connection in
resets its retry_count to zero, appends it to the queue and fires exactly
one connection_checked_in. -/
theorem checkinCore_ok (env : CreateEnv) (st : PoolState) (conn : ConnectionWrapper)
    (hnr : ¬ (st.recycle > -1 ∧ (conn.operation_count : Int) > st.recycle))
    (hroom : ¬ (0 < st.pool_size ∧ st.pool_size ≤ st.queue.length)) :
    checkinCore env st conn =
      ({ st with queue := st.queue ++ [{ conn with retry_count := 0 }] },
       [Event.connection_checked_in conn.wid], Except.ok ()) := by
  have h1 : ¬ (st.recycle > -1 ∧
      ((({ conn with retry_count := 0 } : ConnectionWrapper).operation_count : Int) > st.recycle)) :=
    hnr
  unfold checkinCore putConn queuePut
  rw [if_neg h1, if_neg hroom]
  rfl

/-- Claim C7: when the calling thread has no live cached wrapper, the
idle queue is empty and overflow has reached max_overflow, get fires
pool_at_max exactly once, with size plus overflow, fails with
NoConnectionAvailable and leaves the pool state (queue, overflow,
thread slot, rotor) untouched. -/
theorem C7_pool_at_max (env : CreateEnv) (st : PoolState)
    (hnl : noLiveTLocal st) (hq : st.queue = [])
    (hov : st.overflow ≥ st.max_overflow) :
    doGet env st =
      (st, [Event.pool_at_max ((st.pool_size : Int) + st.overflow)],
       Except.error PoolError.noConnectionAvailable) := by
  obtain ⟨sl, lp, fr, ps, mo, ov, rc, mr, tl, tloc, q⟩ := st
  simp only at hq hov hnl
  subst hq
  rcases hnl with h | h | h | h <;> simp only at h <;> subst h <;>
    first
    | (cases tloc with
        | unset => simp [doGet, queueGet, hov]
        | cleared => simp [doGet, queueGet, hov]
        | ref o => cases o <;> simp [doGet, queueGet, hov])
    | simp [doGet, queueGet, hov]

/-- Witness for C7: a concrete pool with an exhausted overflow budget. -/
theorem C7_pool_at_max_witness :
    c7St.threadlocal = false ∧ c7St.queue = [] ∧ c7St.overflow ≥ c7St.max_overflow ∧
    doGet envAllOk c7St =
      (c7St, [Event.pool_at_max 5], Except.error PoolError.noConnectionAvailable) :=
  ⟨rfl, rfl, by decide,
   C7_pool_at_max envAllOk c7St (Or.inl rfl) rfl (by decide)⟩

/-- When the calling thread has no live cached wrapper and the idle queue
is non-empty, get pops the head of the queue. -/
theorem doGet_pop (env : CreateEnv) (st : PoolState) (w : ConnectionWrapper)
    (rest : List ConnectionWrapper) (hnl : noLiveTLocal st) (hq : st.queue = w :: rest) :
    doGet env st = finishGet { st with queue := rest } w := by
  obtain ⟨sl, lp, fr, ps, mo, ov, rc, mr, tl, tloc, q⟩ := st
  simp only at hq hnl
  subst hq
  rcases hnl with h | h | h | h <;> simp only at h <;> subst h <;>
    first
    | (cases tloc with
        | unset => simp [doGet, queueGet]
        | cleared => simp [doGet, queueGet]
        | ref o => cases o <;> simp [doGet, queueGet])
    | simp [doGet, queueGet]

/-- Claim C8 counterexample: on a non-prefilled pool of size one with an
empty queue (overflow -1), get mints a connection and return_conn then
enqueues it, so the round-trip raises nothing and no recycle fires, yet
checkedin goes from 0 to 1 and overflow from -1 to 0. -/
theorem C8_counterexample :
    (roundTrip envAllOk c8St).2.2 = Except.ok () ∧
    checkedin c8St = 0 ∧
    checkedin (roundTrip envAllOk c8St).1 = 1 ∧
    c8St.overflow = -1 ∧
    (roundTrip envAllOk c8St).1.overflow = 0 :=
  ⟨rfl, rfl, rfl, rfl, rfl⟩

/-- Claim C8 as amended: when no recycle fires and the get is served by
popping the idle queue (the calling thread holds no live cached wrapper
and the queue is non-empty), get followed by return_conn of the obtained
wrapper succeeds and leaves both checkedin and overflow at their values
before the get. -/
theorem C8_roundtrip_hit (env : CreateEnv) (st : PoolState) (w : ConnectionWrapper)
    (rest : List ConnectionWrapper) (hnl : noLiveTLocal st) (hq : st.queue = w :: rest)
    (hcap : st.queue.length ≤ st.pool_size)
    (hnr : ¬ (st.recycle > -1 ∧ (w.operation_count : Int) > st.recycle)) :
    (roundTrip env st).2.2 = Except.ok () ∧
    checkedin (roundTrip env st).1 = checkedin st ∧
    (roundTrip env st).1.overflow = st.overflow := by
  have hpop := doGet_pop env st w rest hnl hq
  have hroom : ¬ (0 < st.pool_size ∧ st.pool_size ≤ rest.length) := by
    rw [hq] at hcap
    simp only [List.length_cons] at hcap
    omega
  by_cases htl : st.threadlocal = true
  · have hfin : finishGet { st with queue := rest } w =
        ({ st with queue := rest, tlocal := TLocal.ref (some w) },
         [Event.connection_checked_out w.wid], Except.ok w) := by
      simp [finishGet, htl]
    have hret : doReturnConn env { st with queue := rest, tlocal := TLocal.ref (some w) } w =
        ({ st with queue := rest ++ [{ w with retry_count := 0 }], tlocal := TLocal.cleared },
         [Event.connection_checked_in w.wid], Except.ok ()) := by
      simp only [doReturnConn, htl, if_true]
      exact checkinCore_ok env _ w hnr hroom
    unfold roundTrip
    rw [hpop, hfin]
    simp only []
    rw [hret]
    refine ⟨rfl, ?_, rfl⟩
    simp only [checkedin, hq, List.length_append, List.length_cons]
    simp
  · have hfin : finishGet { st with queue := rest } w =
        ({ st with queue := rest },
         [Event.connection_checked_out w.wid], Except.ok w) := by
      simp [finishGet, htl]
    have hret : doReturnConn env { st with queue := rest } w =
        ({ st with queue := rest ++ [{ w with retry_count := 0 }] },
         [Event.connection_checked_in w.wid], Except.ok ()) := by
      simp only [doReturnConn, htl, if_false]
      exact checkinCore_ok env _ w hnr hroom
    unfold roundTrip
    rw [hpop, hfin]
    simp only []
    rw [hret]
    refine ⟨rfl, ?_, rfl⟩
    simp only [checkedin, hq, List.length_append, List.length_cons]
    simp

/-- Witness for the amended C8 on a concrete pool whose queue holds one
wrapper. -/
theorem C8_roundtrip_hit_witness :
    c8HitSt.queue = c8HitW :: [] ∧
    (roundTrip envAllOk c8HitSt).2.2 = Except.ok () ∧
    checkedin (roundTrip envAllOk c8HitSt).1 = checkedin c8HitSt ∧
    (roundTrip envAllOk c8HitSt).1.overflow = c8HitSt.overflow :=
  ⟨rfl, C8_roundtrip_hit envAllOk c8HitSt c8HitW [] (Or.inr (Or.inl rfl)) rfl
    (by decide) (by decide)⟩

/-- Claim C9 counterexample: with thread-local mode on and the slot
holding a dead weak reference, the calling thread has no live cached
wrapper, yet return_conn does not return silently - it clears the slot
and raises AttributeError. -/
theorem C9_counterexample :
    doReturnConn envAllOk c9St c9Record =
      ({ c9St with tlocal := TLocal.cleared }, [],
       Except.error (PoolError.attributeError
         "NoneType object has no attribute retry count")) := rfl

/-- Claim C9 as amended: in thread-local mode return_conn ignores its
record argument entirely; a slot that is unset or holds None makes the
call return silently with no state change and no event; a slot holding a
dead weak reference makes it clear the slot and raise AttributeError; and
a live slot checks in the cached wrapper, whatever record was passed. -/
theorem C9_threadlocal_return (env : CreateEnv) (st : PoolState)
    (hl : st.threadlocal = true) :
    (∀ r1 r2 : ConnectionWrapper, doReturnConn env st r1 = doReturnConn env st r2) ∧
    ((st.tlocal = TLocal.unset ∨ st.tlocal = TLocal.cleared) →
      ∀ r : ConnectionWrapper, doReturnConn env st r = (st, [], Except.ok ())) ∧
    (st.tlocal = TLocal.ref none →
      ∀ r : ConnectionWrapper, doReturnConn env st r =
        ({ st with tlocal := TLocal.cleared }, [],
         Except.error (PoolError.attributeError
           "NoneType object has no attribute retry count"))) ∧
    (∀ w : ConnectionWrapper, st.tlocal = TLocal.ref (some w) →
      ¬ (st.recycle > -1 ∧ (w.operation_count : Int) > st.recycle) →
      ¬ (0 < st.pool_size ∧ st.pool_size ≤ st.queue.length) →
      ∀ r : ConnectionWrapper, doReturnConn env st r =
        ({ st with
            tlocal := TLocal.cleared
            queue := st.queue ++ [{ w with retry_count := 0 }] },
         [Event.connection_checked_in w.wid], Except.ok ())) := by
  refine ⟨?_, ?_, ?_, ?_⟩
  · intro r1 r2
    simp only [doReturnConn, hl, if_true]
  · rintro (h | h) r <;> simp [doReturnConn, hl, h]
  · intro h r
    simp [doReturnConn, hl, h]
  · intro w hw hnr hroom r
    simp only [doReturnConn, hl, if_true, hw]
    exact checkinCore_ok env _ w hnr hroom

/-- Witness for the amended C9: a live slot checks in the cached wrapper
even though a different record was passed. -/
theorem C9_threadlocal_return_witness :
    c9LiveSt.threadlocal = true ∧
    doReturnConn envAllOk c9LiveSt c9Record =
      ({ c9LiveSt with tlocal := TLocal.cleared, queue := [c9LiveW] },
       [Event.connection_checked_in 3], Except.ok ()) :=
  ⟨rfl, (C9_threadlocal_return envAllOk c9LiveSt rfl).2.2.2 c9LiveW rfl
    (by decide) (by decide) c9Record⟩

/-- When every attempt in the budget fails, the creation loop fires one
connection_failed per attempt, advances the rotor once per attempt, does
not consume an identity and raises AllServersUnavailable. -/
theorem createLoop_all_fail (env : CreateEnv) (mr : Int) (servers : List String) :
    ∀ (c pos fresh : Nat), (∀ j, j < c → env.connectOk (pos + j) = false) →
      createLoop env mr servers c pos fresh =
        { events := failEvents servers pos c, pos := pos + c, fresh := fresh,
          result := Except.error PoolError.allServersUnavailable } := by
  intro c
  induction c with
  | zero =>
    intro pos fresh h
    simp [createLoop, failEvents]
  | succ c ih =>
    intro pos fresh h
    have h0 : env.connectOk pos = false := by
      have := h 0 (Nat.succ_pos c)
      simpa using this
    have hrec := ih (pos + 1) fresh (fun j hj => by
      have hx := h (j + 1) (by omega)
      rw [show pos + 1 + j = pos + (j + 1) from by omega]
      exact hx)
    simp only [createLoop, h0, Bool.false_eq_true, if_false, hrec, failEvents]
    rw [show pos + 1 + c = pos + (c + 1) from by omega]

/-- When the first k attempts fail and attempt k succeeds within the
budget, the creation loop fires k connection_failed events followed by
connection_created, advances the rotor k + 1 times, consumes one identity
and returns the wrapper freshly bound to the server the rotor selected at
attempt k. -/
theorem createLoop_first_ok (env : CreateEnv) (mr : Int) (servers : List String) :
    ∀ (c k pos fresh : Nat), k < c →
      (∀ j, j < k → env.connectOk (pos + j) = false) →
      env.connectOk (pos + k) = true →
      createLoop env mr servers c pos fresh =
        { events := failEvents servers pos k ++ [Event.connection_created fresh],
          pos := pos + k + 1, fresh := fresh + 1,
          result := Except.ok (mkWrapper fresh (serverAt servers (pos + k))
            (env.now fresh) mr) } := by
  intro c
  induction c with
  | zero =>
    intro k pos fresh hk
    omega
  | succ c ih =>
    intro k pos fresh hk hfail hok
    cases k with
    | zero =>
      have h0 : env.connectOk pos = true := by simpa using hok
      simp [createLoop, h0, failEvents]
    | succ k =>
      have h0 : env.connectOk pos = false := by
        have := hfail 0 (Nat.succ_pos k)
        simpa using this
      have hrec := ih k (pos + 1) fresh (by omega)
        (fun j hj => by
          have hx := hfail (j + 1) (by omega)
          rw [show pos + 1 + j = pos + (j + 1) from by omega]
          exact hx)
        (by
          rw [show pos + 1 + k = pos + (k + 1) from by omega]
          exact hok)
      have e1 : pos + 1 + k = pos + (k + 1) := by omega
      rw [e1] at hrec
      simp only [createLoop, h0, Bool.false_eq_true, if_false, hrec, failEvents]
      constructor

/-- Claim C6: with a non-empty server list, _create_connection makes at
most twice the list length attempts, each taking the next server from the
rotor; when the whole budget fails, every attempt has fired one
connection_failed (carrying the rotor server for that attempt) and
AllServersUnavailable is raised; when some attempt within the budget is
the first to succeed, the failed attempts each fired connection_failed
and the call returns a wrapper bound to the rotor server of that attempt
in state CHECKED_OUT. -/
theorem C6_create_connection (env : CreateEnv) (st : PoolState)
    (hne : 0 < st.server_list.length) :
    ((∀ j, j < 2 * st.server_list.length →
        env.connectOk (st.list_position + j) = false) →
      createConnection env st =
        ({ st with list_position := st.list_position + 2 * st.server_list.length },
         failEvents st.server_list st.list_position (2 * st.server_list.length),
         Except.error PoolError.allServersUnavailable)) ∧
    (∀ k, k < 2 * st.server_list.length →
      (∀ j, j < k → env.connectOk (st.list_position + j) = false) →
      env.connectOk (st.list_position + k) = true →
      createConnection env st =
        ({ st with list_position := st.list_position + k + 1, fresh := st.fresh + 1 },
         failEvents st.server_list st.list_position k ++
           [Event.connection_created st.fresh],
         Except.ok (mkWrapper st.fresh (serverAt st.server_list (st.list_position + k))
           (env.now st.fresh) st.max_retries)) ∧
      (mkWrapper st.fresh (serverAt st.server_list (st.list_position + k))
        (env.now st.fresh) st.max_retries).state = WState.checkedOut) := by
  constructor
  · intro h
    have hl := createLoop_all_fail env st.max_retries st.server_list
      (2 * st.server_list.length) st.list_position st.fresh h
    simp only [createConnection, hl]
  · intro k hk hfail hok
    have hl := createLoop_first_ok env st.max_retries st.server_list
      (2 * st.server_list.length) k st.list_position st.fresh hk hfail hok
    refine ⟨?_, rfl⟩
    simp only [createConnection, hl]

/-- Witness for C6: two servers, every attempt failing; the four attempts
walk the rotor and creation fails with AllServersUnavailable. -/
theorem C6_create_connection_witness :
    0 < c6St.server_list.length ∧
    createConnection envNoneOk c6St =
      ({ c6St with list_position := c6St.list_position + 2 * c6St.server_list.length },
       failEvents c6St.server_list c6St.list_position (2 * c6St.server_list.length),
       Except.error PoolError.allServersUnavailable) :=
  ⟨by decide,
   (C6_create_connection envNoneOk c6St (by decide)).1 (fun j hj => rfl)⟩

/-- Claim C10: when every transport call raises a transient error and the
ceiling is m, the invocation that raises MaximumRetryException performs m
closes over its m + 1 attempts - the raising attempt itself closes
nothing, because the ceiling check precedes the close; the caller-held
wrapper keeps retry_count = m + 1 afterwards; every subsequent retriable
call that hits a transient error then raises MaximumRetryException after
a single transport attempt with no close; and checking the wrapper in
resets its retry_count to zero (the enqueued wrapper carries
retry_count 0). -/
theorem C10_after_max_retry (m : Nat) (tr : Nat → RpcOutcome)
    (sup : Nat → ConnectionWrapper) (w : ConnectionWrapper)
    (hmr : w.max_retries = (m : Int)) (hrc : w.retry_count = 0)
    (htr : ∀ k, tr k = RpcOutcome.transient) (fuel : Nat) (hfuel : m + 1 ≤ fuel) :
    (retryRun tr sup fuel 0 w).result = some (RpcResult.maxRetry (m + 1)) ∧
    (retryRun tr sup fuel 0 w).attempts = m + 1 ∧
    (retryRun tr sup fuel 0 w).closes = m ∧
    (retryRun tr sup fuel 0 w).wrapper.retry_count = m + 1 ∧
    (∀ (tr2 : Nat → RpcOutcome) (fuel2 k2 : Nat),
      tr2 k2 = RpcOutcome.transient → 1 ≤ fuel2 →
      (retryRun tr2 sup fuel2 k2 (retryRun tr sup fuel 0 w).wrapper).result =
        some (RpcResult.maxRetry (m + 2)) ∧
      (retryRun tr2 sup fuel2 k2 (retryRun tr sup fuel 0 w).wrapper).attempts = 1 ∧
      (retryRun tr2 sup fuel2 k2 (retryRun tr sup fuel 0 w).wrapper).closes = 0) ∧
    (∀ (env : CreateEnv) (st : PoolState), st.threadlocal = false →
      ¬ (st.recycle > -1 ∧
          ((retryRun tr sup fuel 0 w).wrapper.operation_count : Int) > st.recycle) →
      ¬ (0 < st.pool_size ∧ st.pool_size ≤ st.queue.length) →
      (doReturnConn env st (retryRun tr sup fuel 0 w).wrapper).1.queue =
        st.queue ++ [{ (retryRun tr sup fuel 0 w).wrapper with retry_count := 0 }]) := by
  obtain ⟨h1, h2, h3, h4, h5, h6⟩ :=
    retryRun_all_transient tr sup htr m fuel 0 w hmr (by omega) (by omega)
  rw [hrc] at h2 h3
  refine ⟨h1, by rw [h2]; omega, by rw [h3]; omega, h5, ?_, ?_⟩
  · intro tr2 fuel2 k2 htr2 hf2
    obtain ⟨g1, g2, g3, g4⟩ := retryRun_over_ceiling tr2 sup m
      (retryRun tr sup fuel 0 w).wrapper h6 (by omega) fuel2 k2 hf2 htr2
    rw [h5] at g1
    exact ⟨g1, g2, g3⟩
  · intro env st htl hnr hroom
    have hret : doReturnConn env st (retryRun tr sup fuel 0 w).wrapper =
        checkinCore env st (retryRun tr sup fuel 0 w).wrapper := by
      simp [doReturnConn, htl]
    rw [hret, checkinCore_ok env st _ hnr hroom]

/-- Witness for C10 at m = 1: the raising run closes once over its two
attempts, leaves retry_count at 2; a later transient call makes exactly
one attempt; and the checkin enqueues the wrapper with retry_count 0. -/
theorem C10_after_max_retry_witness :
    (retryRun (fun _ => RpcOutcome.transient) c1Sup 2 0 c10W).result =
      some (RpcResult.maxRetry 2) ∧
    (retryRun (fun _ => RpcOutcome.transient) c1Sup 2 0 c10W).attempts = 2 ∧
    (retryRun (fun _ => RpcOutcome.transient) c1Sup 2 0 c10W).closes = 1 ∧
    (retryRun (fun _ => RpcOutcome.transient) c1Sup 2 0 c10W).wrapper.retry_count = 2 ∧
    (retryRun (fun _ => RpcOutcome.transient) c1Sup 5 7
        (retryRun (fun _ => RpcOutcome.transient) c1Sup 2 0 c10W).wrapper).attempts = 1 ∧
    (doReturnConn envAllOk c10RetSt
        (retryRun (fun _ => RpcOutcome.transient) c1Sup 2 0 c10W).wrapper).1.queue =
      c10RetSt.queue ++
        [{ (retryRun (fun _ => RpcOutcome.transient) c1Sup 2 0 c10W).wrapper with
            retry_count := 0 }] := by
  have h := C10_after_max_retry 1 (fun _ => RpcOutcome.transient) c1Sup c10W rfl rfl
    (fun _ => rfl) 2 (by omega)
  exact ⟨h.1, h.2.1, h.2.2.1, h.2.2.2.1,
    (h.2.2.2.2.1 (fun _ => RpcOutcome.transient) 5 7 rfl (by omega)).2.1,
    h.2.2.2.2.2 envAllOk c10RetSt rfl (by decide) (by decide)⟩

end Pycassa
